import Mathlib

/-!
Verification of the keypad2 driver (src/src/lib.rs): a 3-column by 4-row
matrix-keypad scanner.  The Rust code is shallowly embedded: the fallible
pin reads (`is_low() : Result<bool, E>`) become `Option Bool`, the fallible
column writes (`set_low()/set_high() : Result<(), E>`) become `Option Unit`,
and `unwrap_or_default()` becomes an explicit function.  A row-pin
environment `env : Nat → Nat → Option Bool` gives, for active column `c`,
the result of sampling row pin `r` (`none` models a hardware read failure);
a write environment `wenv : Nat → Bool → Option Unit` gives the outcome of
driving column `c` to a level (`false` = low).  `read_char`'s result is
`Option Char`, `none` modelling the panic of `.unwrap()` in `get_char`.
-/

namespace Keypad2

/-- Row-pin readings: `env c r` is the `is_low()` result of row pin `r`
while column pin `c` is driven low. -/
abbrev PinsEnv : Type := Nat → Nat → Option Bool

/-- Column-pin write outcomes: `wenv c lvl` is the result of driving column
`c` to level `lvl` (`false` = `set_low`, `true` = `set_high`). -/
abbrev WriteEnv : Type := Nat → Bool → Option Unit

/-- Rust `Result<bool, E>::unwrap_or_default()`: the default of `bool` is
`false`, so a failed read acts as "pin not low". -/
def unwrap_or_default : Option Bool → Bool
  | some b => b
  | none => false

/-- Rust `Result<(), E>::unwrap_or_default()`: a failed write is a no-op. -/
def unwrap_or_default_unit : Option Unit → Unit :=
  fun _ => ()

-- The key constants from the bottom of lib.rs.
def KEY_1 : Nat := 1
def KEY_4 : Nat := 1 <<< 1
def KEY_7 : Nat := 1 <<< 2
def KEY_STAR : Nat := 1 <<< 3
def KEY_2 : Nat := 1 <<< 4
def KEY_5 : Nat := 1 <<< 5
def KEY_8 : Nat := 1 <<< 6
def KEY_0 : Nat := 1 <<< 7
def KEY_3 : Nat := 1 <<< 8
def KEY_6 : Nat := 1 <<< 9
def KEY_9 : Nat := 1 <<< 10
def KEY_HASH : Nat := 1 <<< 11

/-- `Keypad::convert`: the Rust `match` on the raw `u16` value, one arm per
key constant, wildcard arm `-10`. -/
def convert (value : Nat) : Int :=
  if value = KEY_1 then 1
  else if value = KEY_4 then 4
  else if value = KEY_7 then 7
  else if value = KEY_STAR then -1
  else if value = KEY_2 then 2
  else if value = KEY_5 then 5
  else if value = KEY_8 then 8
  else if value = KEY_0 then 0
  else if value = KEY_3 then 3
  else if value = KEY_6 then 6
  else if value = KEY_9 then 9
  else if value = KEY_HASH then -2
  else -10

/-- The Rust cast `value as u32` on an `i16`: two's-complement wrap into
32 bits. -/
def i16_as_u32 (v : Int) : Nat :=
  (v % 4294967296).toNat

/-- Rust `char::from_digit(num, radix)`: `Some` of the digit character when
`num < radix` (digits above 9 are lowercase letters), `None` otherwise. -/
def char_from_digit (num : Nat) (radix : Nat) : Option Char :=
  if num < radix then
    if num < 10 then some (Char.ofNat (48 + num))
    else some (Char.ofNat (87 + num))
  else none

/-- `Keypad::get_char`: decode the raw value, then map `-1` to star, `-2`
to hash, and anything else through `char::from_digit(value as u32, 10)`.
`none` models the panic of the trailing `.unwrap()`. -/
def get_char (raw_value : Nat) : Option Char :=
  let value := convert raw_value
  if value = -1 then some '*'
  else if value = -2 then some '#'
  else char_from_digit (i16_as_u32 value) 10

/-- `Keypad::read_column`: after the 1 ms settle delay, sample the four row
pins in order and set bit `r` for each row pin reading low; a failed read
counts as not-low via `unwrap_or_default`. -/
def read_column (rows : Nat → Option Bool) : Nat :=
  let res : Nat := 0
  let res := if unwrap_or_default (rows 0) then res ||| (1 <<< 0) else res
  let res := if unwrap_or_default (rows 1) then res ||| (1 <<< 1) else res
  let res := if unwrap_or_default (rows 2) then res ||| (1 <<< 2) else res
  let res := if unwrap_or_default (rows 3) then res ||| (1 <<< 3) else res
  res

/-- `Keypad::read`: drive each column low in turn, sample the rows, shift
the per-column nibble into place, and drive the column back high.  The
write outcomes are passed through `unwrap_or_default_unit` and discarded,
mirroring `set_low().unwrap_or_default()`. -/
def read (env : PinsEnv) (wenv : WriteEnv) : Nat :=
  let res : Nat := 0
  let _ := unwrap_or_default_unit (wenv 0 false)
  let res := res ||| (read_column (env 0) <<< 0)
  let _ := unwrap_or_default_unit (wenv 0 true)
  let _ := unwrap_or_default_unit (wenv 1 false)
  let res := res ||| (read_column (env 1) <<< 4)
  let _ := unwrap_or_default_unit (wenv 1 true)
  let _ := unwrap_or_default_unit (wenv 2 false)
  let res := res ||| (read_column (env 2) <<< 8)
  let _ := unwrap_or_default_unit (wenv 2 true)
  res

/-- `Keypad::read_char`: a full raw scan, then space on zero, otherwise
decode.  `none` models the panic reachable through `get_char`. -/
def read_char (env : PinsEnv) (wenv : WriteEnv) : Option Char :=
  let raw := read env wenv
  if raw ≠ 0 then get_char raw else some ' '

/-- Observable pin and timing events of a scan, for the side-effect
ordering claims. -/
inductive Ev : Type
  | setLow : Nat → Ev
  | setHigh : Nat → Ev
  | delayMs : Nat → Ev
  | readRow : Nat → Ev
deriving DecidableEq

/-- Event trace of `Keypad::read_column`: the settle delay, then the four
unconditional row samples, in source order.  The value component is
`read_column` itself. -/
def read_column_trace (rows : Nat → Option Bool) : List Ev × Nat :=
  ([Ev.delayMs 1, Ev.readRow 0, Ev.readRow 1, Ev.readRow 2, Ev.readRow 3],
   read_column rows)

/-- Event trace of `Keypad::read`: for each column in order 0, 1, 2, the
activation (`setLow`), the column read's events, and the deactivation
(`setHigh`).  The value component is `read` itself. -/
def read_trace (env : PinsEnv) (wenv : WriteEnv) : List Ev × Nat :=
  ([Ev.setLow 0] ++ (read_column_trace (env 0)).fst ++ [Ev.setHigh 0]
    ++ [Ev.setLow 1] ++ (read_column_trace (env 1)).fst ++ [Ev.setHigh 1]
    ++ [Ev.setLow 2] ++ (read_column_trace (env 2)).fst ++ [Ev.setHigh 2],
   read env wenv)

/-- Replay a trace over the level of column pin `c`: `true` = high.  Used
to state that every column is left high when the scan returns. -/
def col_high_after (t : List Ev) (c : Nat) (init : Bool) : Bool :=
  t.foldl
    (fun s e =>
      match e with
      | Ev.setLow c2 => if c2 = c then false else s
      | Ev.setHigh c2 => if c2 = c then true else s
      | _ => s)
    init

/-- Number of bits set among the low 16 bits; the raw value is a `u16`. -/
def bits_set (v : Nat) : Nat :=
  ((List.range 16).filter (fun i => v.testBit i)).length

/-- A pin environment with rows 0 and 1 low while column 0 is active:
two keys of the same column pressed at once. -/
def env_two_keys : PinsEnv :=
  fun c r => some (decide (c = 0 ∧ r < 2))

/-- A pin environment where only row 3 is low while column 0 is active:
the star key. -/
def env_star : PinsEnv :=
  fun c r => some (decide (c = 0 ∧ r = 3))

/-- A pin environment where only row 3 is low while column 2 is active:
the hash key. -/
def env_hash : PinsEnv :=
  fun c r => some (decide (c = 2 ∧ r = 3))

/-! ### Helper lemmas -/

lemma convert_eq_sentinel (v : Nat) (h1 : v ≠ 1) (h2 : v ≠ 2) (h3 : v ≠ 4)
    (h4 : v ≠ 8) (h5 : v ≠ 16) (h6 : v ≠ 32) (h7 : v ≠ 64) (h8 : v ≠ 128)
    (h9 : v ≠ 256) (h10 : v ≠ 512) (h11 : v ≠ 1024) (h12 : v ≠ 2048) :
    convert v = -10 := by
  simp only [convert, KEY_1, KEY_4, KEY_7, KEY_STAR, KEY_2, KEY_5, KEY_8,
    KEY_0, KEY_3, KEY_6, KEY_9, KEY_HASH, Nat.shiftLeft_eq]
  norm_num [h1, h2, h3, h4, h5, h6, h7, h8, h9, h10, h11, h12]

lemma convert_sentinel_of_not_mem (v : Nat)
    (hmem : v ∉ [1, 2, 4, 8, 16, 32, 64, 128, 256, 512, 1024, 2048]) :
    convert v = -10 := by
  simp only [List.mem_cons, List.not_mem_nil, or_false] at hmem
  push_neg at hmem
  obtain ⟨h1, h2, h3, h4, h5, h6, h7, h8, h9, h10, h11, h12⟩ := hmem
  exact convert_eq_sentinel v h1 h2 h3 h4 h5 h6 h7 h8 h9 h10 h11 h12

lemma get_char_sentinel (raw : Nat) (h : convert raw = -10) :
    get_char raw = none := by
  simp only [get_char, h]
  decide

lemma read_column_lt (rows : Nat → Option Bool) : read_column rows < 16 := by
  simp only [read_column]
  cases unwrap_or_default (rows 0) <;> cases unwrap_or_default (rows 1) <;>
    cases unwrap_or_default (rows 2) <;> cases unwrap_or_default (rows 3) <;> decide

lemma read_column_testBit (rows : Nat → Option Bool) (r : Nat) (h : r < 4) :
    (read_column rows).testBit r = unwrap_or_default (rows r) := by
  simp only [read_column]
  interval_cases r <;>
    (cases unwrap_or_default (rows 0) <;> cases unwrap_or_default (rows 1) <;>
      cases unwrap_or_default (rows 2) <;> cases unwrap_or_default (rows 3) <;> decide)

lemma read_eq (env : PinsEnv) (wenv : WriteEnv) :
    read env wenv =
      (read_column (env 0) ||| read_column (env 1) <<< 4) ||| read_column (env 2) <<< 8 := by
  simp only [read, Nat.shiftLeft_zero, Nat.zero_or]

lemma read_lt (env : PinsEnv) (wenv : WriteEnv) : read env wenv < 4096 := by
  rw [read_eq]
  have h0 := read_column_lt (env 0)
  have h1 := read_column_lt (env 1)
  have h2 := read_column_lt (env 2)
  have hA : read_column (env 0) < 2 ^ 12 := by omega
  have hB : read_column (env 1) <<< 4 < 2 ^ 12 := by
    rw [Nat.shiftLeft_eq]; omega
  have hC : read_column (env 2) <<< 8 < 2 ^ 12 := by
    rw [Nat.shiftLeft_eq]; omega
  have := Nat.or_lt_two_pow (Nat.or_lt_two_pow hA hB) hC
  omega

lemma testBit_high_false (x i : Nat) (hx : x < 16) (hi : 4 ≤ i) :
    x.testBit i = false := by
  apply Nat.testBit_lt_two_pow
  calc x < 16 := hx
    _ = 2 ^ 4 := by norm_num
    _ ≤ 2 ^ i := Nat.pow_le_pow_right (by norm_num) hi

lemma read_testBit (env : PinsEnv) (wenv : WriteEnv) (c r : Nat)
    (hc : c < 3) (hr : r < 4) :
    (read env wenv).testBit (r + 4 * c) = unwrap_or_default (env c r) := by
  rw [read_eq]
  rw [Nat.testBit_or, Nat.testBit_or, Nat.testBit_shiftLeft, Nat.testBit_shiftLeft]
  interval_cases c
  · have e4 : decide (4 ≤ r + 4 * 0) = false := by simp; omega
    have e8 : decide (8 ≤ r + 4 * 0) = false := by simp; omega
    rw [e4, e8]
    simp only [Bool.false_and, Bool.or_false]
    have : r + 4 * 0 = r := by omega
    rw [this, read_column_testBit (env 0) r hr]
  · have hA : (read_column (env 0)).testBit (r + 4 * 1) = false :=
      testBit_high_false _ _ (read_column_lt _) (by omega)
    have e4 : decide (4 ≤ r + 4 * 1) = true := by simp
    have e8 : decide (8 ≤ r + 4 * 1) = false := by simp; omega
    rw [hA, e4, e8]
    simp only [Bool.false_and, Bool.or_false, Bool.true_and, Bool.false_or]
    have : r + 4 * 1 - 4 = r := by omega
    rw [this, read_column_testBit (env 1) r hr]
  · have hA : (read_column (env 0)).testBit (r + 4 * 2) = false :=
      testBit_high_false _ _ (read_column_lt _) (by omega)
    have e4 : decide (4 ≤ r + 4 * 2) = true := by simp
    have e8 : decide (8 ≤ r + 4 * 2) = true := by simp
    have hB : (read_column (env 1)).testBit (r + 4 * 2 - 4) = false :=
      testBit_high_false _ _ (read_column_lt _) (by omega)
    rw [hA, e4, e8, hB]
    simp only [Bool.true_and, Bool.false_or, Bool.and_false, Bool.false_and]
    have : r + 4 * 2 - 8 = r := by omega
    rw [this, read_column_testBit (env 2) r hr]

lemma read_trace_fst (env : PinsEnv) (wenv : WriteEnv) :
    (read_trace env wenv).fst =
      [Ev.setLow 0, Ev.delayMs 1, Ev.readRow 0, Ev.readRow 1, Ev.readRow 2,
       Ev.readRow 3, Ev.setHigh 0, Ev.setLow 1, Ev.delayMs 1, Ev.readRow 0,
       Ev.readRow 1, Ev.readRow 2, Ev.readRow 3, Ev.setHigh 1, Ev.setLow 2,
       Ev.delayMs 1, Ev.readRow 0, Ev.readRow 1, Ev.readRow 2, Ev.readRow 3,
       Ev.setHigh 2] := rfl

lemma get_char_ne_space (raw : Nat) : get_char raw ≠ some ' ' := by
  by_cases h1 : raw = 1
  · subst h1; decide
  by_cases h2 : raw = 2
  · subst h2; decide
  by_cases h3 : raw = 4
  · subst h3; decide
  by_cases h4 : raw = 8
  · subst h4; decide
  by_cases h5 : raw = 16
  · subst h5; decide
  by_cases h6 : raw = 32
  · subst h6; decide
  by_cases h7 : raw = 64
  · subst h7; decide
  by_cases h8 : raw = 128
  · subst h8; decide
  by_cases h9 : raw = 256
  · subst h9; decide
  by_cases h10 : raw = 512
  · subst h10; decide
  by_cases h11 : raw = 1024
  · subst h11; decide
  by_cases h12 : raw = 2048
  · subst h12; decide
  rw [get_char_sentinel raw
    (convert_eq_sentinel raw h1 h2 h3 h4 h5 h6 h7 h8 h9 h10 h11 h12)]
  decide

lemma get_char_five_iff (raw : Nat) : get_char raw = some '5' ↔ raw = 32 := by
  by_cases h1 : raw = 1
  · subst h1; decide
  by_cases h2 : raw = 2
  · subst h2; decide
  by_cases h3 : raw = 4
  · subst h3; decide
  by_cases h4 : raw = 8
  · subst h4; decide
  by_cases h5 : raw = 16
  · subst h5; decide
  by_cases h6 : raw = 32
  · subst h6; decide
  by_cases h7 : raw = 64
  · subst h7; decide
  by_cases h8 : raw = 128
  · subst h8; decide
  by_cases h9 : raw = 256
  · subst h9; decide
  by_cases h10 : raw = 512
  · subst h10; decide
  by_cases h11 : raw = 1024
  · subst h11; decide
  by_cases h12 : raw = 2048
  · subst h12; decide
  rw [get_char_sentinel raw
    (convert_eq_sentinel raw h1 h2 h3 h4 h5 h6 h7 h8 h9 h10 h11 h12)]
  simp [h6]

lemma read_char_eq_ite (env : PinsEnv) (wenv : WriteEnv) :
    read_char env wenv =
      if read env wenv = 0 then some ' ' else get_char (read env wenv) := by
  simp only [read_char]
  by_cases h : read env wenv = 0
  · rw [if_neg (fun hne => hne h), if_pos h]
  · rw [if_pos h, if_neg h]

/-! ### Claim theorems -/

/-- Claim C1: for every one of the 12 single-bit raw bitmask values
`1 <<< (r + 4*c)` with `r` in 0..3 and `c` in 0..2, `convert` returns the
documented decoded value: bit0→1, bit1→4, bit2→7, bit3→-1 (star), bit4→2,
bit5→5, bit6→8, bit7→0, bit8→3, bit9→6, bit10→9, bit11→-2 (hash). -/
theorem C1_convert_single_bits :
    convert (1 <<< (0 + 4 * 0)) = 1 ∧ convert (1 <<< (1 + 4 * 0)) = 4 ∧
    convert (1 <<< (2 + 4 * 0)) = 7 ∧ convert (1 <<< (3 + 4 * 0)) = -1 ∧
    convert (1 <<< (0 + 4 * 1)) = 2 ∧ convert (1 <<< (1 + 4 * 1)) = 5 ∧
    convert (1 <<< (2 + 4 * 1)) = 8 ∧ convert (1 <<< (3 + 4 * 1)) = 0 ∧
    convert (1 <<< (0 + 4 * 2)) = 3 ∧ convert (1 <<< (1 + 4 * 2)) = 6 ∧
    convert (1 <<< (2 + 4 * 2)) = 9 ∧ convert (1 <<< (3 + 4 * 2)) = -2 := by
  decide

/-- Claim C2 (code bug): the claim says `read_char` returns a character for
every pin-state input, including raw bitmasks with two or more bits set.
At the two-keys-pressed environment the raw scan yields 3, `convert`
returns the sentinel -10, and `get_char` reaches
`char::from_digit((-10i16) as u32, 10).unwrap()`, which panics — modelled
here as `none`. -/
theorem C2_read_char_two_keys_panics :
    ∀ wenv : WriteEnv,
      read env_two_keys wenv = 3 ∧ read_char env_two_keys wenv = none := by
  intro wenv
  exact ⟨rfl, rfl⟩

/-- Claim C3: `convert 0` is the sentinel -10; every `u16` value with two
or more bits set maps to the sentinel; every `u16` value that is not one of
the 12 single-key bit patterns maps to the sentinel. -/
theorem C3_convert_sentinel :
    convert 0 = -10 ∧
    (∀ v : Nat, v < 65536 → 2 ≤ bits_set v → convert v = -10) ∧
    (∀ v : Nat, v < 65536 →
      v ∉ [1, 2, 4, 8, 16, 32, 64, 128, 256, 512, 1024, 2048] →
      convert v = -10) := by
  refine ⟨by decide, ?_, ?_⟩
  · intro v _ hpop
    apply convert_sentinel_of_not_mem
    intro hm
    fin_cases hm <;> exact absurd hpop (by decide)
  · intro v _ hmem
    exact convert_sentinel_of_not_mem v hmem

/-- Witness for C3: the two-bit value 3 is a `u16`, has two bits set, and
decodes to the sentinel. -/
theorem C3_convert_sentinel_witness :
    (3 : Nat) < 65536 ∧ 2 ≤ bits_set 3 ∧ convert 3 = -10 :=
  ⟨by decide, by decide, C3_convert_sentinel.2.1 3 (by decide) (by decide)⟩

/-- Claim C4: `read_char` returns the space character if and only if the
full raw scan produces bitmask zero; in particular, with every row pin
reading high (not low) under all three columns, it returns space. -/
theorem C4_read_char_space_iff :
    ∀ (env : PinsEnv) (wenv : WriteEnv),
      (read_char env wenv = some ' ' ↔ read env wenv = 0) ∧
      read_char (fun _ _ => some false) wenv = some ' ' := by
  intro env wenv
  constructor
  · rw [read_char_eq_ite]
    by_cases h : read env wenv = 0
    · simp [h]
    · rw [if_neg h]
      simp only [h, iff_false]
      exact get_char_ne_space (read env wenv)
  · rfl

/-- Claim C5: `read_char` returns '5' exactly when the raw scan yields the
bit pattern `1 <<< 5` (row 1 low exclusively while column 1 is active);
and it returns '*' for raw pattern `1 <<< 3` and '#' for `1 <<< 11`,
exhibited by the star-key and hash-key environments. -/
theorem C5_read_char_five_iff :
    ∀ (env : PinsEnv) (wenv : WriteEnv),
      (read_char env wenv = some '5' ↔ read env wenv = 1 <<< 5) ∧
      read env_star wenv = 1 <<< 3 ∧ read_char env_star wenv = some '*' ∧
      read env_hash wenv = 1 <<< 11 ∧ read_char env_hash wenv = some '#' := by
  intro env wenv
  refine ⟨?_, rfl, rfl, rfl, rfl⟩
  rw [read_char_eq_ite]
  by_cases h : read env wenv = 0
  · rw [if_pos h, h]
    decide
  · rw [if_neg h, get_char_five_iff]
    exact Iff.rfl

/-- Claim C6: one full scan produces exactly this pin side-effect sequence
regardless of the pin readings: columns activated in order 0, 1, 2, each
activation followed by one 1 ms delay, the four row samples, then the
deactivation of that same column; the delay is invoked exactly 3 times;
and every column pin is high when the scan returns, whatever its initial
level. -/
theorem C6_scan_sequence :
    ∀ (env : PinsEnv) (wenv : WriteEnv) (init : Bool),
      (read_trace env wenv).fst =
        [Ev.setLow 0, Ev.delayMs 1, Ev.readRow 0, Ev.readRow 1, Ev.readRow 2,
         Ev.readRow 3, Ev.setHigh 0, Ev.setLow 1, Ev.delayMs 1, Ev.readRow 0,
         Ev.readRow 1, Ev.readRow 2, Ev.readRow 3, Ev.setHigh 1, Ev.setLow 2,
         Ev.delayMs 1, Ev.readRow 0, Ev.readRow 1, Ev.readRow 2, Ev.readRow 3,
         Ev.setHigh 2] ∧
      (read_trace env wenv).fst.countP
        (fun e => match e with | Ev.delayMs _ => true | _ => false) = 3 ∧
      col_high_after (read_trace env wenv).fst 0 init = true ∧
      col_high_after (read_trace env wenv).fst 1 init = true ∧
      col_high_after (read_trace env wenv).fst 2 init = true := by
  intro env wenv init
  refine ⟨read_trace_fst env wenv, ?_, ?_, ?_, ?_⟩ <;>
    rw [read_trace_fst] <;> cases init <;> decide

/-- Claim C7: in the raw scan result, row `r` reading low while column `c`
is active shows up exactly at bit `r + 4*c`: that bit of the accumulator
equals the (default-unwrapped) reading of row `r` under column `c`. -/
theorem C7_raw_bit_assignment :
    ∀ (env : PinsEnv) (wenv : WriteEnv) (c r : Nat), c < 3 → r < 4 →
      (read env wenv).testBit (r + 4 * c) = unwrap_or_default (env c r) := by
  intro env wenv c r hc hr
  exact read_testBit env wenv c r hc hr

/-- Witness for C7: with every row reading low under every column, bit
`2 + 4*1` of the raw scan is set. -/
theorem C7_raw_bit_assignment_witness :
    (1 : Nat) < 3 ∧ (2 : Nat) < 4 ∧
    (read (fun _ _ => some true) (fun _ _ => some ())).testBit (2 + 4 * 1) =
      unwrap_or_default (some true) :=
  ⟨by decide, by decide,
    C7_raw_bit_assignment (fun _ _ => some true) (fun _ _ => some ()) 1 2
      (by decide) (by decide)⟩

/-- Claim C8: a row-pin read failure is treated as "not pressed" (the bit
at `r + 4*c` is clear), a column-pin write failure is a no-op (the raw
result does not depend on the write outcomes), and each pin operation is
attempted exactly once per scan step (row `r` is sampled once per column,
3 times per scan; column `c` is driven low once and high once). -/
theorem C8_pin_failure_handling :
    ∀ (env : PinsEnv) (wenv wenv2 : WriteEnv) (c r : Nat),
      c < 3 → r < 4 → env c r = none →
      (read env wenv).testBit (r + 4 * c) = false ∧
      read env wenv = read env wenv2 ∧
      (read_trace env wenv).fst.countP (fun e => decide (e = Ev.readRow r)) = 3 ∧
      (read_trace env wenv).fst.countP (fun e => decide (e = Ev.setLow c)) = 1 ∧
      (read_trace env wenv).fst.countP (fun e => decide (e = Ev.setHigh c)) = 1 := by
  intro env wenv wenv2 c r hc hr henv
  refine ⟨?_, rfl, ?_, ?_, ?_⟩
  · rw [read_testBit env wenv c r hc hr, henv]
    rfl
  · rw [read_trace_fst]
    interval_cases r <;> decide
  · rw [read_trace_fst]
    interval_cases c <;> decide
  · rw [read_trace_fst]
    interval_cases c <;> decide

/-- Witness for C8: with every row-pin read failing, bit 0 of the scan is
clear, write outcomes are irrelevant, and the pin-operation counts hold. -/
theorem C8_pin_failure_handling_witness :
    (read (fun _ _ => none) (fun _ _ => some ())).testBit (0 + 4 * 0) = false ∧
    read (fun _ _ => none) (fun _ _ => some ()) =
      read (fun _ _ => none) (fun _ _ => none) ∧
    (read_trace (fun _ _ => none) (fun _ _ => some ())).fst.countP
      (fun e => decide (e = Ev.readRow 0)) = 3 ∧
    (read_trace (fun _ _ => none) (fun _ _ => some ())).fst.countP
      (fun e => decide (e = Ev.setLow 0)) = 1 ∧
    (read_trace (fun _ _ => none) (fun _ _ => some ())).fst.countP
      (fun e => decide (e = Ev.setHigh 0)) = 1 :=
  C8_pin_failure_handling (fun _ _ => none) (fun _ _ => some ())
    (fun _ _ => none) 0 0 (by decide) (by decide) rfl

/-- Claim C9: `read_char` is deterministic in the physical key state: if
each row pin reports the same reading under the same active column across
two calls, the two calls return equal characters. -/
theorem C9_read_char_deterministic :
    ∀ (env1 env2 : PinsEnv) (wenv : WriteEnv),
      (∀ c r, env1 c r = env2 c r) →
      read_char env1 wenv = read_char env2 wenv := by
  intro env1 env2 wenv h
  have he : env1 = env2 := funext fun c => funext fun r => h c r
  rw [he]

/-- Witness for C9: two extensionally equal all-high environments yield the
same character. -/
theorem C9_read_char_deterministic_witness :
    read_char (fun _ _ => some false) (fun _ _ => some ()) =
      read_char (fun _ _ => some (false && true)) (fun _ _ => some ()) :=
  C9_read_char_deterministic (fun _ _ => some false)
    (fun _ _ => some (false && true)) (fun _ _ => some ())
    (fun _ _ => rfl)

/-- Claim C10: for every pin environment the raw scan value is below 4096
(bits 12–15 clear: every bit index at or above 12 reads false), and each
per-column sample is below 16 before shifting. -/
theorem C10_raw_bound :
    ∀ (env : PinsEnv) (wenv : WriteEnv),
      read env wenv < 4096 ∧
      (∀ rows : Nat → Option Bool, read_column rows < 16) ∧
      (∀ i : Nat, 12 ≤ i → (read env wenv).testBit i = false) := by
  intro env wenv
  refine ⟨read_lt env wenv, fun rows => read_column_lt rows, ?_⟩
  intro i hi
  apply Nat.testBit_lt_two_pow
  calc read env wenv < 4096 := read_lt env wenv
    _ = 2 ^ 12 := by norm_num
    _ ≤ 2 ^ i := Nat.pow_le_pow_right (by norm_num) hi

/-- Witness for C10: with every row reading low everywhere, the raw value
is below 4096 and bit 12 is clear. -/
theorem C10_raw_bound_witness :
    12 ≤ 12 ∧
    (read (fun _ _ => some true) (fun _ _ => some ())).testBit 12 = false :=
  ⟨by decide,
    (C10_raw_bound (fun _ _ => some true) (fun _ _ => some ())).2.2 12
      (by decide)⟩

end Keypad2
